import Mathlib

/-!
Shallow embedding of the matterbridge Slack bridge
(bridge/slack/slack.go and bridge/slack/handlers.go): data model,
inbound event classification, dedup cache, download and upload
handling, rate-limit retry discipline and the outbound dispatch
decision list.  External collaborators (the relay, the channel/user
directory, the wire-level client and the shared helper package) are
modelled as oracle fields of environment records.
-/

namespace MBSlack

/-- Slack message subtypes and reserved names (string constants from slack.go). -/
def sChannelJoin : String := "channel_join"

def sChannelLeave : String := "channel_leave"

def sChannelJoined : String := "channel_joined"

def sMemberJoined : String := "member_joined_channel"

def sMessageChanged : String := "message_changed"

def sMessageDeleted : String := "message_deleted"

def sSlackAttachment : String := "slack_attachment"

def sPinnedItem : String := "pinned_item"

def sUnpinnedItem : String := "unpinned_item"

def sChannelTopic : String := "channel_topic"

def sChannelPurpose : String := "channel_purpose"

def sFileComment : String := "file_comment"

def sMeMessage : String := "me_message"

def sSystemUser : String := "system"

def sSlackBotUser : String := "slackbot"

def cfileDownloadChannel : String := "file_download_channel"

/-- time.Minute in nanoseconds (Go duration used by fileCached). -/
def minuteNs : Int := 60000000000

/-- 10 * time.Second in nanoseconds (Go duration used by fileCached). -/
def tenSecondsNs : Int := 10000000000

/-- Modelled from the spec: the closed set of canonical event kinds of the
relay config package (outside src).  Only the distinctness of these
literals matters to the bridge code. -/
def eventJoinLeave : String := "join_leave"

def eventTopicChange : String := "topic_change"

def eventMsgDelete : String := "msg_delete"

def eventUserAction : String := "user_action"

def eventUserTyping : String := "user_typing"

def eventFileDelete : String := "file_delete"

def eventGetChannelMembers : String := "get_channel_members"

/-- slack.Attachment: the fields read by handleAttachments and getMessageTitle. -/
structure Attachment where
  title : String := ""
  titleLink : String := ""
  text : String := ""
  footer : String := ""
  fallback : String := ""
deriving DecidableEq

/-- A block of a slack message: the code only distinguishes a SectionBlock
(whose BlockID it reads) from every other block type (the type assertion
to *slack.SectionBlock fails). -/
inductive Block where
  | sectionB (blockID : String)
  | otherB
deriving DecidableEq

/-- slack.MessageEvent.SubMessage: the fields read by skipMessageEvent and
handleStatusEvent.  `edited` is whether the Edited field is non-nil. -/
structure SubMessage where
  threadTimestamp : String := ""
  timestamp : String := ""
  edited : Bool := false
  text : String := ""
  blocks : List Block := []
deriving DecidableEq

/-- slack.File: the fields read by fileCached and handleDownloadFile.
`url` is URLPrivateDownload. -/
structure SFile where
  id : String := ""
  name : String := ""
  size : Nat := 0
  url : String := ""
deriving DecidableEq

/-- slack.MessageEvent: the fields read by the classification pipeline. -/
structure MessageEvent where
  subType : String := ""
  user : String := ""
  username : String := ""
  botID : String := ""
  hidden : Bool := false
  channel : String := ""
  deletedTimestamp : String := ""
  blocks : List Block := []
  subMessage : Option SubMessage := none
  files : List SFile := []
  attachments : List Attachment := []
deriving DecidableEq

/-- config.FileInfo (relay package, outside src): name and comment of a
file payload carried in Extra. -/
structure FileInfo where
  name : String := ""
  comment : String := ""
deriving DecidableEq

/-- The Extra side-payload map of a canonical message, restricted to the
key families this bridge reads ("file", the slack attachment bundle, and
any other keys).  A Go map key exists exactly when something was appended
under it, so emptiness of the map is emptiness of all three components. -/
structure ExtraPayload where
  files : List FileInfo := []
  slackAttach : List (List Attachment) := []
  otherKeys : List String := []
deriving DecidableEq

def ExtraPayload.isEmpty (e : ExtraPayload) : Bool :=
  e.files.isEmpty && e.slackAttach.isEmpty && e.otherKeys.isEmpty

/-- config.Message (relay package): the canonical message. -/
structure CMessage where
  id : String := ""
  parentID : String := ""
  channel : String := ""
  username : String := ""
  userID : String := ""
  avatar : String := ""
  text : String := ""
  event : String := ""
  account : String := ""
  proto : String := ""
  extra : ExtraPayload := {}
deriving DecidableEq

/-! ### Dedup cache (LRU cache of slack.go, keyed lookups of fileCached)

The cache is modelled as an association list from key to insertion time
(nanoseconds).  `cacheAdd` replaces any previous entry for the key, as
lru.Cache.Add does.  The capacity bound (5000) and LRU eviction are not
modelled: no claim concerns eviction pressure. -/

abbrev Cache := List (String × Int)

def cacheGet (c : Cache) (k : String) : Option Int :=
  (c.find? (fun p => p.1 == k)).map (fun p => p.2)

def cacheAdd (c : Cache) (k : String) (t : Int) : Cache :=
  (k, t) :: c.filter (fun p => p.1 != k)

/-- Whether key `k` is present and was inserted less than `bound`
nanoseconds before `now` (the reader-side TTL check of fileCached). -/
def freshUnder (c : Cache) (k : String) (now bound : Int) : Bool :=
  match cacheGet c k with
  | some ts => decide (now - ts < bound)
  | none => false

/-- fileCached (handlers.go): true if the file-id marker is under a minute
old, else true if the filename marker is under ten seconds old, else false. -/
def fileCachedm (c : Cache) (now : Int) (f : SFile) : Bool :=
  freshUnder c ("file" ++ f.id) now minuteNs
    || freshUnder c ("filename" ++ f.name) now tenSecondsNs

/-- filesCached (handlers.go): every file of the list is cached. -/
def filesCachedm (c : Cache) (now : Int) (fs : List SFile) : Bool :=
  fs.all (fun f => fileCachedm c now f)

/-! ### Event classification: skipMessageEvent -/

/-- The type assertion plus BlockID comparison of skipMessageEvent. -/
def blockMatches (uuid : String) : Block → Bool
  | .sectionB bid => bid == "matterbridge_" ++ uuid
  | .otherB => false

/-- The guarded assignment of hasOurCallbackID: the flag is overwritten
only when the block list has exactly one entry; otherwise it keeps its
previous value `dflt`. -/
def singleBlockMatch (uuid : String) (bs : List Block) (dflt : Bool) : Bool :=
  match bs with
  | [b] => blockMatches uuid b
  | _ => dflt

/-- Environment of skipMessageEvent: instance uuid, the
nosendjoinpart setting, and the dedup cache with the current clock. -/
structure SkipEnv where
  uuid : String := ""
  noSendJoin : Bool := false
  cache : Cache := []
  now : Int := 0

/-- Tail of skipMessageEvent after the hasOurCallbackID flag `h` is
settled: skip for the reserved bot name or the own marker, else defer to
the file cache when files are present. -/
def finishSkip (env : SkipEnv) (ev : MessageEvent) (h : Bool) : Bool :=
  if ev.username == sSlackBotUser || h then true
  else if ev.files.length > 0 then filesCachedm env.cache env.now ev.files
  else false

/-- skipMessageEvent (handlers.go). -/
def skipMessageEventm (env : SkipEnv) (ev : MessageEvent) : Bool :=
  if ev.subType == sChannelLeave || ev.subType == sChannelJoin then
    env.noSendJoin
  else if ev.subType == sPinnedItem || ev.subType == sUnpinnedItem then
    true
  else if (ev.subType == sChannelTopic || ev.subType == sChannelPurpose)
      && (ev.user == "" || ev.user == sSlackBotUser) then
    true
  else
    match ev.subMessage with
    | some sm =>
      if sm.threadTimestamp != sm.timestamp && !sm.edited then true
      else if ev.subType == "message_replied" && ev.hidden then true
      else finishSkip env ev
        (singleBlockMatch env.uuid sm.blocks (singleBlockMatch env.uuid ev.blocks false))
    | none => finishSkip env ev (singleBlockMatch env.uuid ev.blocks false)

/-- The marker flag that skipMessageEvent ends up comparing: the
sub-event block list overrides the outer one whenever the sub-event is
present and carries exactly one block. -/
def decisiveMatch (uuid : String) (ev : MessageEvent) : Bool :=
  match ev.subMessage with
  | some sm => singleBlockMatch uuid sm.blocks (singleBlockMatch uuid ev.blocks false)
  | none => singleBlockMatch uuid ev.blocks false

/-! ### Status classification and attachments -/

/-- handleStatusEvent (handlers.go).  Returns the updated message and the
handledFully flag.  The directory refresh on topic/purpose is a side
effect on a collaborator and is not part of the message state.  On
message_changed Go dereferences ev.SubMessage unconditionally (a nil
sub-message would panic); the `none` branch below is therefore outside
the behavior the theorems rely on. -/
def handleStatusEventm (ev : MessageEvent) (m : CMessage) : CMessage × Bool :=
  if ev.subType == sChannelJoined || ev.subType == sMemberJoined then
    (m, true)
  else if ev.subType == sChannelJoin || ev.subType == sChannelLeave then
    ({ m with username := sSystemUser, event := eventJoinLeave }, false)
  else if ev.subType == sChannelTopic || ev.subType == sChannelPurpose then
    ({ m with event := eventTopicChange }, false)
  else if ev.subType == sMessageChanged then
    let smText := (ev.subMessage.map SubMessage.text).getD ""
    if smText == "This message was deleted." then
      ({ m with text := smText, event := eventMsgDelete }, true)
    else
      ({ m with text := smText }, false)
  else if ev.subType == sMessageDeleted then
    let m1 := { m with text := eventMsgDelete, event := eventMsgDelete, id := ev.deletedTimestamp }
    (m1, true)
  else if ev.subType == sMeMessage then
    ({ m with event := eventUserAction }, false)
  else
    (m, false)

/-- getMessageTitle (handlers.go). -/
def getMessageTitlem (a : Attachment) : String :=
  if a.titleLink != "" then
    "[" ++ a.title ++ "](" ++ a.titleLink ++ ")\n"
  else
    a.title

/-- One iteration of the attachment-to-text loop of handleAttachments:
`acc` is the current rmsg.Text. -/
def attachStep (acc : String) (a : Attachment) : String :=
  if a.text != "" then
    let t1 := if a.title != "" then getMessageTitlem a else acc
    let t2 := t1 ++ a.text
    if a.footer != "" then t2 ++ "\n\n" ++ a.footer else t2
  else
    a.fallback

/-- The text-synthesis stage of handleAttachments: the loop runs only when
the current text is empty. -/
def attachmentsTextm (initial : String) (as : List Attachment) : String :=
  if initial == "" then as.foldl attachStep initial else initial

/-! ### File download: handleDownloadFile -/

/-- Oracle environment of handleDownloadFile: the dedup-cache check at
call time, the size/blacklist policy (helper.HandleDownloadSize), the
authenticated fetch (helper.DownloadFileAuth, indexed by attempt so the
two calls may return different data), and helper.HandleDownloadData2
which attaches the data and comment to the message. -/
structure DLEnv where
  cached : SFile → Bool
  sizeAllowed : String → Nat → Bool
  fetch : String → Nat → Except String (List Nat)
  processData : CMessage → SFile → String → List Nat → CMessage

/-- Observable actions of one handleDownloadFile call: how many fetches
were issued and how many seconds were slept. -/
structure DLTrace where
  fetches : Nat
  sleepSeconds : Nat
deriving DecidableEq

/-- The retry = true invocation of handleDownloadFile: it re-runs the
whole body from the top, and its mismatch branch cannot recurse again, so
it is the base stage of the (depth-one) recursion. -/
def handleDownloadFileRetrym (env : DLEnv) (m : CMessage) (f : SFile) :
    CMessage × DLTrace × Option String :=
  if env.cached f then (m, ⟨0, 0⟩, none)
  else if !(env.sizeAllowed f.name f.size) then (m, ⟨0, 0⟩, none)
  else
    match env.fetch f.url 1 with
    | .error e => (m, ⟨1, 0⟩, some e)
    | .ok data =>
      (env.processData { m with text := "" } f m.text data, ⟨1, 0⟩, none)

/-- handleDownloadFile (handlers.go), entered with retry = false. -/
def handleDownloadFilem (env : DLEnv) (m : CMessage) (f : SFile) :
    CMessage × DLTrace × Option String :=
  if env.cached f then (m, ⟨0, 0⟩, none)
  else if !(env.sizeAllowed f.name f.size) then (m, ⟨0, 0⟩, none)
  else
    match env.fetch f.url 0 with
    | .error e => (m, ⟨1, 0⟩, some e)
    | .ok data =>
      if data.length != f.size then
        match handleDownloadFileRetrym env m f with
        | (m2, tr, r) => (m2, ⟨tr.fetches + 1, tr.sleepSeconds + 1⟩, r)
      else
        (env.processData { m with text := "" } f m.text data, ⟨1, 0⟩, none)

/-- handleAttachments (handlers.go).  The channel-binding cache write
(cfileDownloadChannel key) touches only the dedup cache, not the message,
and is not needed by the message-level claims; download errors are logged
and do not change the message beyond what the download already did. -/
def handleAttachmentsm (env : DLEnv) (ev : MessageEvent) (m : CMessage) : CMessage :=
  let m1 := if ev.subType == sFileComment then { m with username := sSystemUser } else m
  let m2 := { m1 with text := attachmentsTextm m1.text ev.attachments }
  let m3 :=
    if ev.attachments.length > 0 then
      { m2 with extra := { m2.extra with slackAttach := m2.extra.slackAttach ++ [ev.attachments] } }
    else m2
  ev.files.foldl (fun acc f => (handleDownloadFilem env acc f).1) m3

/-- Cause tag of the empty-message error of handleMessageEvent. -/
inductive EmptyCause where
  | webhookBot
  | editedSub
  | generic
deriving DecidableEq

/-- handleMessageEvent (handlers.go).  populateReceivedMessage is outside
src; its result is the `populated` parameter.  An error return means the
message is dropped, not forwarded. -/
def handleMessageEventm (env : DLEnv) (ev : MessageEvent) (populated : CMessage) :
    Except EmptyCause CMessage :=
  let r := handleStatusEventm ev populated
  if r.2 then .ok r.1
  else
    let m2 := handleAttachmentsm env ev r.1
    if ev.files.length == 0 && (m2.text == "" || m2.username == "") then
      if ev.botID != "" then .error .webhookBot
      else if ev.subMessage.isSome then .error .editedSub
      else .error .generic
    else .ok m2

/-! ### File upload: uploadFile -/

/-- Result of sc.UploadFile: the platform file id and, when the file was
shared into the target channel, the timestamp of the sharing message. -/
structure UploadRes where
  id : String := ""
  shareTs : Option String := none
deriving DecidableEq

/-- The loop body of uploadFile (slack.go) over msg.Extra["file"],
tracking the dedup cache: a filename marker is recorded (at the iteration
clock `times i`) before the upload call, and a file-id marker at the same
timestamp once the platform returns a non-empty file id.  The clearing of
msg.Text when it equals the comment affects only the message, not the
cache or result id. -/
def uploadFileGo (upload : FileInfo → Except String UploadRes) (times : Nat → Int)
    (i : Nat) (c : Cache) (mid : String) :
    List FileInfo → Cache × Except String String
  | [] => (c, .ok mid)
  | fi :: rest =>
    let ts := times i
    let c1 := cacheAdd c ("filename" ++ fi.name) ts
    match upload fi with
    | .error e => (c1, .error e)
    | .ok res =>
      let c2 := if res.id != "" then cacheAdd c1 ("file" ++ res.id) ts else c1
      let mid2 := match res.shareTs with
        | some t => t
        | none => mid
      uploadFileGo upload times (i + 1) c2 mid2 rest

/-! ### Rate-limit retry discipline -/

/-- A platform call error: rate limited with a suggested wait
(nanoseconds), or anything else. -/
inductive SlackErr where
  | rateLimited (waitNs : Nat)
  | fatal (msg : String)
deriving DecidableEq

/-- Outcome of one platform call attempt. -/
inductive CallOutcome where
  | success (id : String)
  | failure (e : SlackErr)
deriving DecidableEq

/-- Modelled from the spec: handleRateLimit (bridge/slack helper file, not
under src) recognizes a rate-limit error carrying a suggested wait and
returns it; any other error is fatal (returned as-is). -/
def handleRateLimitm : SlackErr → Option Nat
  | .rateLimited w => some w
  | .fatal _ => none

/-- The unconditional for-loop shared by postAPIMessage, deleteMessage,
editMessage and updateTopicOrPurpose (slack.go): issue the call; on
success return; classify the error; if retryable sleep the indicated wait
and reissue identically; else return the error.  `trace` gives the
outcome of the i-th issued call; the evaluation is fuel-indexed and
returns the final result, the number of issued calls and the total slept
wait once the loop exits within the fuel, and none while it has not. -/
def retryLoopRun (trace : Nat → CallOutcome) : Nat → Option (Except SlackErr String × Nat × Nat)
  | 0 => none
  | fuel + 1 =>
    match trace 0 with
    | .success id => some (.ok id, 1, 0)
    | .failure e =>
      match handleRateLimitm e with
      | none => some (.error e, 1, 0)
      | some w =>
        (retryLoopRun (fun i => trace (i + 1)) fuel).map
          (fun r => (r.1, r.2.1 + 1, r.2.2 + w))

/-! ### JoinChannel: legacy join disposition -/

/-- The error-message switch inside the legacy join attempt of JoinChannel
(slack.go).  none means the error is swallowed and processing continues;
some means JoinChannel returns the error.  Note that the source writes
`case "default":` — a case matching only the literal error string
"default" — not a default case, so every other error message falls out of
the switch and is swallowed. -/
def legacyJoinDisposition (errMsg : String) : Option String :=
  if errMsg == "name_taken" || errMsg == "restricted_action" then none
  else if errMsg == "default" then some errMsg
  else none

/-- What the legacy join attempt of JoinChannel does overall:
continue to channel resolution, or return an error. -/
inductive JoinOutcome where
  | proceedToResolve
  | returnErr (e : String)
deriving DecidableEq

/-- The legacy-mode prelude of JoinChannel (slack.go): in legacy mode a
join is attempted; `joinErr` is its error message when it failed. -/
def joinChannelLegacyStep (legacy : Bool) (joinErr : Option String) : JoinOutcome :=
  if legacy then
    match joinErr with
    | none => .proceedToResolve
    | some m =>
      match legacyJoinDisposition m with
      | some e => .returnErr e
      | none => .proceedToResolve
  else .proceedToResolve

/-! ### Outbound dispatch: Send, sendAPI, postAPIMessage -/

/-- A platform call issued by the API sender.  Each retry loop is
abstracted to its eventual outcome here (the loop discipline itself is
retryLoopRun); one constructor per call site. -/
inductive APICall where
  | post (chID text : String)
  | update (chID id : String)
  | delete (chID id : String)
  | setTopic (chID : String)
  | setPurpose (chID : String)
  | upload (name : String)
deriving DecidableEq

/-- Environment of the outbound dispatcher: configuration values, the
directory collaborator, the helper-package text rewriting, the relay-side
parent-not-found test, and the eventual outcomes of the platform calls. -/
structure SendEnv where
  tokenBot : String := ""
  outgoingURL : String := ""
  prependNick : Bool := false
  syncTopic : Bool := false
  showTopicChange : Bool := false
  /-- channel name to channel id, via the directory collaborator. -/
  getChannel : String → Option String := fun _ => none
  /-- Modelled from the spec: helper.ClipMessage followed by
  replaceCodeFence (both outside src) rewrite the outgoing text. -/
  rewriteText : String → String := id
  /-- Modelled from the spec: config.Message.ParentNotFound (relay
  package, outside src) — whether the parent id signals an unresolvable
  thread parent. -/
  parentNotFound : String → Bool := fun _ => false
  /-- Modelled from the spec: extractTopicOrPurpose (outside src) —
  some true for a topic change, some false for a purpose change, none
  when unhandled. -/
  extractTopicKind : String → Option Bool := fun _ => none
  setTopicCall : String → String → Except String Unit := fun _ _ => .ok ()
  setPurposeCall : String → String → Except String Unit := fun _ _ => .ok ()
  deleteCall : String → String → Except String Unit := fun _ _ => .ok ()
  updateCall : String → String → String → Except String Unit := fun _ _ _ => .ok ()
  postCall : String → String → Except String String := fun _ _ => .ok ""
  uploadCall : FileInfo → Except String UploadRes := fun _ => .ok {}
  /-- Modelled from the spec: helper.HandleExtra (outside src) produces
  the side messages (for example file-failure notices) to post first. -/
  handleExtraMsgs : CMessage → List CMessage := fun _ => []
  cache0 : Cache := []
  times : Nat → Int := fun _ => 0

/-- postAPIMessage (slack.go): empty text is not posted and returns
an empty id with no error; otherwise one post call (loop abstracted to
its outcome). -/
def postAPIMessagem (env : SendEnv) (text chID : String) :
    Except String String × List APICall :=
  if text == "" then (.ok "", [])
  else
    match env.postCall chID text with
    | .ok id => (.ok id, [.post chID text])
    | .error e => (.error e, [.post chID text])

/-- updateTopicOrPurpose (slack.go): dispatch on the extracted change
type; an unhandled type is logged and treated as success. -/
def updateTopicOrPurposem (env : SendEnv) (chID text : String) :
    Except String String × List APICall :=
  match env.extractTopicKind text with
  | some true =>
    match env.setTopicCall chID text with
    | .ok _ => (.ok "", [.setTopic chID])
    | .error e => (.error e, [.setTopic chID])
  | some false =>
    match env.setPurposeCall chID text with
    | .ok _ => (.ok "", [.setPurpose chID])
    | .error e => (.error e, [.setPurpose chID])
  | none => (.ok "", [])

/-- The Extra branch of sendAPI (slack.go): post each side message with
the username prepended (failures only logged), then upload the file
payloads, recording dedup markers (uploadFileGo). -/
def sendExtram (env : SendEnv) (msg : CMessage) (chID : String) :
    Except String String × List APICall :=
  let posts := (env.handleExtraMsgs msg).map
    (fun r => APICall.post chID (r.username ++ r.text))
  let up := uploadFileGo env.uploadCall env.times 0 env.cache0 "" msg.extra.files
  (up.2, posts ++ msg.extra.files.map (fun fi => APICall.upload fi.name))

/-- sendAPI (slack.go): the ordered decision list of the API sender. -/
def sendAPIm (env : SendEnv) (msg : CMessage) : Except String String × List APICall :=
  if msg.event == eventGetChannelMembers then (.ok "", [])
  else
    match env.getChannel msg.channel with
    | none => (.error "could not send message: channel not found", [])
    | some chID =>
      if msg.event == eventUserTyping then (.ok "", [])
      else
        let topicHandled : Option (Except String String × List APICall) :=
          if msg.event == eventTopicChange then
            if env.syncTopic then some (updateTopicOrPurposem env chID msg.text)
            else if env.showTopicChange then none
            else some (.ok "", [])
          else none
        match topicHandled with
        | some r => r
        | none =>
          let msg1 :=
            if env.parentNotFound msg.parentID then
              { msg with parentID := "", text := "[thread]: " ++ msg.text }
            else msg
          if msg1.event == eventMsgDelete then
            if msg1.id == "" then (.ok msg1.id, [])
            else
              match env.deleteCall chID msg1.id with
              | .ok _ => (.ok msg1.id, [.delete chID msg1.id])
              | .error e => (.error e, [.delete chID msg1.id])
          else
            let msg2 :=
              if env.prependNick then { msg1 with text := msg1.username ++ msg1.text }
              else msg1
            if msg2.id != "" then
              match env.updateCall chID msg2.id msg2.text with
              | .ok _ => (.ok msg2.id, [.update chID msg2.id])
              | .error e => (.error e, [.update chID msg2.id])
            else if !msg2.extra.isEmpty then sendExtram env msg2 chID
            else postAPIMessagem env msg2.text chID

/-- Where Send dispatched the message, and with which API-side result. -/
inductive Dispatched where
  | viaWebhook
  | viaAPI (result : Except String String) (calls : List APICall)

def Dispatched.isWebhook : Dispatched → Bool
  | .viaWebhook => true
  | .viaAPI _ _ => false

/-- Send (slack.go): rewrite the text (clip + code fence), wrap
UserAction text in emphasis markers, then route: webhook sender exactly
when an outgoing webhook URL is configured and no bot token is, otherwise
the API sender. -/
def Sendm (env : SendEnv) (msg : CMessage) : Dispatched :=
  let m1 := { msg with text := env.rewriteText msg.text }
  let m2 :=
    if m1.event == eventUserAction then { m1 with text := "_" ++ m1.text ++ "_" }
    else m1
  if env.outgoingURL != "" && env.tokenBot == "" then .viaWebhook
  else
    let r := sendAPIm env m2
    .viaAPI r.1 r.2

/-! ### Events HTTP endpoint: handleSlackEvents -/

/-- The inner event of SlackEventWrapper, as the first (error-ignored)
json.Unmarshal left it. -/
structure EventPayload where
  etype : String := ""
  subType : String := ""
  user : String := ""
  text : String := ""
  channel : String := ""
deriving DecidableEq

/-- SlackEventWrapper as the first json.Unmarshal left it (its error is
discarded, so a wholly unparsable body leaves the zero value). -/
structure EventWrapper where
  wtype : String := ""
  event : EventPayload := {}
deriving DecidableEq

/-- Environment of the events endpoint: the outcome of the second
json.Unmarshal of the body into the challenge struct, the directory
lookup by channel id, and the user-profile fetch (none on error, some
display name on success). -/
structure EventsEnv where
  challengeParse : Option String := none
  channelByID : String → Option String := fun _ => none
  userInfo : String → Option String := fun _ => none
  account : String := ""

/-- The HTTP response of the events endpoint.  okEmpty is status 200 with
empty body, in particular the implicit 200 of a handler that returns
without writing. -/
inductive HResponse where
  | challengeJSON (c : String)
  | badRequest
  | okEmpty
deriving DecidableEq

/-- handleSlackEvents (slack.go): the response, and the canonical message
forwarded to the relay when the event is accepted. -/
def handleSlackEventsm (env : EventsEnv) (evt : EventWrapper) :
    HResponse × Option CMessage :=
  if evt.wtype == "url_verification" then
    match env.challengeParse with
    | none => (.badRequest, none)
    | some c => (.challengeJSON c, none)
  else if evt.wtype == "event_callback" && evt.event.etype == "message"
      && evt.event.subType != "bot_message" then
    match env.channelByID evt.event.channel with
    | none => (.okEmpty, none)
    | some chName =>
      let username :=
        if evt.event.user != "" then
          match env.userInfo evt.event.user with
          | some dn => if dn != "" then dn else evt.event.user
          | none => evt.event.user
        else evt.event.user
      let fwd : CMessage := { text := evt.event.text, channel := chName, username := username, account := env.account, proto := "slack" }
      (.okEmpty, some fwd)
  else (.okEmpty, none)

/-! ### Concrete inputs used by witnesses and counterexamples -/

/-- An event whose single section block carries the origin tag of the
instance below, but whose subtype is channel_join. -/
def evC1 : MessageEvent :=
  { subType := "channel_join", user := "U1", username := "alice",
    blocks := [Block.sectionB "matterbridge_u1"] }

def envC1 : SkipEnv := { uuid := "u1", noSendJoin := false }

/-- A plain event carrying the origin tag of the instance below. -/
def evC1W : MessageEvent :=
  { user := "U1", username := "bob", blocks := [Block.sectionB "matterbridge_u1"] }

def envC1W : SkipEnv := { uuid := "u1" }

def uploadW : FileInfo → Except String UploadRes :=
  fun _ => .ok { id := "F1", shareTs := some "11.22" }

def timesW : Nat → Int := fun _ => 0

def fiW : FileInfo := { name := "pic.png" }

/-- Two rate-limited failures (waits 2 and 3 ns), then success. -/
def traceC5 : Nat → CallOutcome := fun i =>
  match i with
  | 0 => CallOutcome.failure (SlackErr.rateLimited 2)
  | 1 => CallOutcome.failure (SlackErr.rateLimited 3)
  | _ => CallOutcome.success "169.42"

/-- Every attempt is rate limited. -/
def traceAllRL : Nat → CallOutcome := fun _ => CallOutcome.failure (SlackErr.rateLimited 1)

def attachA : Attachment := { text := "a" }

def attachB : Attachment := { text := "b" }

def attachTitled : Attachment := { title := "T", text := "body" }

def attachFB : Attachment := { fallback := "fb" }

/-- Download environment where every file is already cached. -/
def envDLCached : DLEnv :=
  { cached := fun _ => true, sizeAllowed := fun _ _ => true,
    fetch := fun _ _ => .error "unused", processData := fun m _ _ _ => m }

def evC7 : MessageEvent := {}

def popC7 : CMessage := { text := "hello", username := "alice" }

/-- Download environment whose fetch returns one byte on the first
attempt and two bytes on the second. -/
def envC8 : DLEnv :=
  { cached := fun _ => false, sizeAllowed := fun _ _ => true,
    fetch := fun _ i => if i == 0 then .ok [7] else .ok [7, 8],
    processData := fun m _ _ _ => m }

def fC8 : SFile := { id := "F2", name := "a.bin", size := 3, url := "u" }

def mC8 : CMessage := { text := "caption" }

def envC9V : EventsEnv := { challengeParse := some "tok" }

def evtC9V : EventWrapper := { wtype := "url_verification" }

def envC9M : EventsEnv := { channelByID := fun _ => some "general", account := "slack.x" }

def evtC9M : EventWrapper :=
  { wtype := "event_callback", event := { etype := "message", user := "", text := "hi", channel := "C7" } }

/-- API-mode environment with nickname prefixing enabled. -/
def envC10 : SendEnv :=
  { tokenBot := "xoxb-1", prependNick := true,
    getChannel := fun _ => some "C1", postCall := fun _ _ => .ok "169.42" }

/-- API-mode environment with nickname prefixing disabled. -/
def envC10W : SendEnv :=
  { tokenBot := "xoxb-1", getChannel := fun _ => some "C1", postCall := fun _ _ => .ok "169.42" }

def msgC10 : CMessage := { username := "alice", channel := "general" }

/-! ## Theorems -/

/-- C3: for every outbound canonical message, Send dispatches it through
the webhook sender if and only if an outgoing webhook URL is configured
and no bot token is configured; in every other configuration it
dispatches through the API sender. -/
theorem c3_send_routing (env : SendEnv) (msg : CMessage) :
    (Sendm env msg).isWebhook = true ↔ (env.outgoingURL ≠ "" ∧ env.tokenBot = "") := by
  rw [Sendm]
  cases hb : (env.outgoingURL != "" && env.tokenBot == "") with
  | true =>
    have hb2 := hb
    rw [Bool.and_eq_true, bne_iff_ne, beq_iff_eq] at hb2
    simp [hb, Dispatched.isWebhook, hb2.1, hb2.2]
  | false =>
    simp only [hb, Bool.false_eq_true, if_false, Dispatched.isWebhook, false_iff]
    intro hcon
    have hcb : (env.outgoingURL != "" && env.tokenBot == "") = true := by
      rw [Bool.and_eq_true, bne_iff_ne, beq_iff_eq]
      exact hcon
    rw [hb] at hcb
    exact Bool.false_ne_true hcb

/-- C4: the code evaluated at the failing input.  In legacy token mode a
join failure with message channel_not_found — neither an already-a-member
nor a forbidden outcome — is swallowed and JoinChannel proceeds to
channel resolution, because the switch in the source has a
`case "default":` (matching only that literal error string) instead of a
default case; the claim and spec say such an error is returned. -/
theorem c4_legacy_join_swallows_other_errors :
    joinChannelLegacyStep true (some "channel_not_found") = JoinOutcome.proceedToResolve
      ∧ legacyJoinDisposition "channel_not_found" = none
      ∧ legacyJoinDisposition "default" = some "default"
      ∧ legacyJoinDisposition "name_taken" = none
      ∧ legacyJoinDisposition "restricted_action" = none := by
  exact ⟨rfl, rfl, rfl, rfl, rfl⟩

/-- C5: the retry loop has no maximum attempt count and no deadline: a
call whose first two attempts fail with retryable (rate-limited) errors
and whose third succeeds is issued exactly three times with total induced
delay the sum of the two indicated waits, and a call whose attempts are
all rate limited has not exited after any number of attempts. -/
theorem c5_retry_loop :
    (∀ (trace : Nat → CallOutcome) (w1 w2 : Nat) (id : String) (n : Nat),
      trace 0 = .failure (.rateLimited w1) →
      trace 1 = .failure (.rateLimited w2) →
      trace 2 = .success id →
      retryLoopRun trace (n + 3) = some (.ok id, 3, w1 + w2))
    ∧ (∀ trace : Nat → CallOutcome,
        (∀ i, ∃ w, trace i = .failure (.rateLimited w)) →
        ∀ fuel, retryLoopRun trace fuel = none) := by
  constructor
  · intro trace w1 w2 id n h0 h1 h2
    have e1 : trace (0 + 1) = .failure (.rateLimited w2) := h1
    have e2 : trace (0 + 1 + 1) = .success id := h2
    simp [retryLoopRun, h0, e1, e2, handleRateLimitm]
    omega
  · intro trace h fuel
    induction fuel generalizing trace with
    | zero => rfl
    | succ n ih =>
      obtain ⟨w, hw⟩ := h 0
      simp [retryLoopRun, hw, handleRateLimitm,
        ih (fun i => trace (i + 1)) (fun i => h (i + 1))]

/-- C5 witness: with the concrete trace rate-limited (wait 2), rate
limited (wait 3), success, the loop exits with three issued calls and
total delay 5; with the everywhere-rate-limited trace it has not exited
after 5 attempts. -/
theorem c5_retry_loop_witness :
    retryLoopRun traceC5 10 = some (.ok "169.42", 3, 5)
      ∧ retryLoopRun traceAllRL 5 = none := by
  constructor
  · exact c5_retry_loop.1 traceC5 2 3 "169.42" 7 rfl rfl rfl
  · exact c5_retry_loop.2 traceAllRL (fun i => ⟨1, rfl⟩) 5

/-- C6 counterexample: with two attachments that carry bare text (no
title, no footer), the synthesized text is the concatenation "ab" of both
texts, while processing the last attachment alone yields "b" — the first
attachment also determines the final text, so iteration does not always
overwrite. -/
theorem c6_counterexample :
    attachmentsTextm "" [attachA, attachB] = "ab"
      ∧ attachmentsTextm "" [attachB] = "b"
      ∧ attachmentsTextm "" [attachA, attachB] ≠ attachmentsTextm "" [attachB] := by
  refine ⟨rfl, rfl, by decide⟩

/-- C6 (amended): an iteration of the attachment-to-text loop overwrites
the accumulated text exactly when its attachment has empty text (the
fallback assignment) or a nonempty title (the title assignment); an
attachment with nonempty text and empty title instead appends its text to
the accumulated text.  Hence the final text is determined by the last
attachment alone whenever that attachment has empty text or a
nonempty title. -/
theorem c6_attachment_text_overwrite :
    (∀ (s t : String) (a : Attachment), a.text = "" ∨ a.title ≠ "" →
      attachStep s a = attachStep t a)
    ∧ (∀ (s : String) (a : Attachment), a.text ≠ "" → a.title = "" →
      attachStep s a = s ++ attachStep "" a)
    ∧ (∀ (as : List Attachment) (a : Attachment), a.text = "" ∨ a.title ≠ "" →
      attachmentsTextm "" (as ++ [a]) = attachStep "" a) := by
  have step_const : ∀ (s t : String) (a : Attachment), a.text = "" ∨ a.title ≠ "" →
      attachStep s a = attachStep t a := by
    intro s t a h
    rcases h with h | h
    · simp [attachStep, h]
    · simp [attachStep, h]
  have str_assoc : ∀ a b c : String, a ++ b ++ c = a ++ (b ++ c) := by
    intro a b c
    apply String.ext
    simp
  refine ⟨step_const, ?_, ?_⟩
  · intro s a ht htitle
    have ht' : (a.text != "") = true := bne_iff_ne.mpr ht
    have htitle' : (a.title != "") = false := by simp [htitle]
    by_cases hf : a.footer = ""
    · simp [attachStep, ht', htitle', hf, String.empty_append]
    · have hf' : (a.footer != "") = true := bne_iff_ne.mpr hf
      simp [attachStep, ht', htitle', hf', String.empty_append, str_assoc]
  · intro as a h
    have : attachmentsTextm "" (as ++ [a]) = attachStep (List.foldl attachStep "" as) a := by
      simp [attachmentsTextm, List.foldl_append]
    rw [this]
    exact step_const _ "" a h

/-- C1 counterexample: an event whose single section block carries this
instance's origin tag but whose subtype is channel_join, with join/leave
suppression off, is NOT skipped — the subtype switch returns the
suppression setting before the self-marker check is reached, so the
claim's regardless-of-subtype quantification fails. -/
theorem c1_counterexample :
    singleBlockMatch envC1.uuid evC1.blocks false = true
      ∧ skipMessageEventm envC1 evC1 = false :=
  ⟨rfl, rfl⟩

/-- C1 (amended): skipMessageEvent returns true for every event whose
decisive block list — the prior-version sub-event's block list when a
sub-event with exactly one block is present, the event's own otherwise —
is exactly one rich-content block whose block id equals the origin tag,
provided that when the subtype is channel_join or channel_leave the
suppress-join/leave setting is enabled (those subtypes return that
setting before the marker check). -/
theorem c1_self_marker_skip (env : SkipEnv) (ev : MessageEvent)
    (hjl : ev.subType = sChannelJoin ∨ ev.subType = sChannelLeave → env.noSendJoin = true)
    (hm : decisiveMatch env.uuid ev = true) :
    skipMessageEventm env ev = true := by
  have hfin : ∀ ev2, finishSkip env ev2 true = true := by
    intro ev2
    simp [finishSkip]
  rw [skipMessageEventm]
  by_cases h1 : (ev.subType == sChannelLeave || ev.subType == sChannelJoin) = true
  · rw [if_pos h1]
    rw [Bool.or_eq_true] at h1
    rcases h1 with h | h
    · exact hjl (Or.inr (beq_iff_eq.mp h))
    · exact hjl (Or.inl (beq_iff_eq.mp h))
  · rw [if_neg h1]
    by_cases h2 : (ev.subType == sPinnedItem || ev.subType == sUnpinnedItem) = true
    · rw [if_pos h2]
    · rw [if_neg h2]
      by_cases h3 : ((ev.subType == sChannelTopic || ev.subType == sChannelPurpose)
          && (ev.user == "" || ev.user == sSlackBotUser)) = true
      · rw [if_pos h3]
      · rw [if_neg h3]
        rw [decisiveMatch] at hm
        cases hsm : ev.subMessage with
        | none =>
          rw [hsm] at hm
          have hm2 : singleBlockMatch env.uuid ev.blocks false = true := hm
          simp only [hsm]
          rw [hm2]
          exact hfin ev
        | some sm =>
          rw [hsm] at hm
          have hm2 : singleBlockMatch env.uuid sm.blocks
              (singleBlockMatch env.uuid ev.blocks false) = true := hm
          simp only [hsm]
          by_cases h4 : (sm.threadTimestamp != sm.timestamp && !sm.edited) = true
          · rw [if_pos h4]
          · rw [if_neg h4]
            by_cases h5 : (ev.subType == "message_replied" && ev.hidden) = true
            · rw [if_pos h5]
            · rw [if_neg h5]
              rw [hm2]
              exact hfin ev

/-- C1 amended-claim witness: a plain event carrying the instance's own
origin tag in its single section block is skipped. -/
theorem c1_self_marker_skip_witness : skipMessageEventm envC1W evC1W = true :=
  c1_self_marker_skip envC1W evC1W (by decide) rfl

/-- find? for key `k` is unaffected by filtering out entries of a
different key `k2`. -/
theorem find?_filter_other (c : Cache) (k k2 : String) (h : k ≠ k2) :
    (c.filter (fun p => p.1 != k2)).find? (fun p => p.1 == k)
      = c.find? (fun p => p.1 == k) := by
  induction c with
  | nil => rfl
  | cons a rest ih =>
    by_cases h2 : a.1 = k2
    · have hdrop : (a.1 != k2) = false := by simp [h2]
      have hk : (a.1 == k) = false := by
        rw [beq_eq_false_iff_ne, h2]
        exact fun e => h e.symm
      simp only [List.filter_cons, hdrop, Bool.false_eq_true, if_false, List.find?_cons, hk]
      exact ih
    · have hkeep : (a.1 != k2) = true := by simp [h2]
      simp only [List.filter_cons, hkeep, if_true]
      by_cases h3 : a.1 = k
      · have hfound : (a.1 == k) = true := by simp [h3]
        simp only [List.find?_cons, hfound]
      · have hmiss : (a.1 == k) = false := by simp [h3]
        simp only [List.find?_cons, hmiss]
        exact ih

/-- Looking up the key just added returns its timestamp. -/
theorem cacheGet_add_self (c : Cache) (k : String) (t : Int) :
    cacheGet (cacheAdd c k t) k = some t := by
  simp [cacheGet, cacheAdd]

/-- Adding a different key does not change a lookup. -/
theorem cacheGet_add_other (c : Cache) (k k2 : String) (t : Int) (h : k ≠ k2) :
    cacheGet (cacheAdd c k2 t) k = cacheGet c k := by
  simp only [cacheGet, cacheAdd]
  have hk2 : (k2 == k) = false := by
    rw [beq_eq_false_iff_ne]
    exact fun e => h e.symm
  simp only [List.find?_cons, hk2]
  rw [find?_filter_other c k k2 h]

/-- C2: after uploadFile records the dedup markers of a file at time T
(filename marker before the upload call, file-id marker once the platform
returns a non-empty id), fileCached is true for a file with the same id
queried less than 60 seconds after T, true for a file with the same name
queried less than 10 seconds after T, and false for an identical file
queried once both windows have expired. -/
theorem c2_upload_dedup_windows
    (upload : FileInfo → Except String UploadRes) (times : Nat → Int) (c : Cache)
    (fi : FileInfo) (fid : String) (sh : Option String) (t : Int)
    (hup : upload fi = .ok { id := fid, shareTs := sh }) (hfid : fid ≠ "") :
    (∀ f : SFile, f.id = fid → t - times 0 < minuteNs →
      fileCachedm (uploadFileGo upload times 0 c "" [fi]).1 t f = true)
    ∧ (∀ f : SFile, f.name = fi.name → t - times 0 < tenSecondsNs →
      fileCachedm (uploadFileGo upload times 0 c "" [fi]).1 t f = true)
    ∧ (∀ f : SFile, f.id = fid → f.name = fi.name → minuteNs ≤ t - times 0 →
      fileCachedm (uploadFileGo upload times 0 c "" [fi]).1 t f = false) := by
  have hc : (uploadFileGo upload times 0 c "" [fi]).1
      = cacheAdd (cacheAdd c ("filename" ++ fi.name) (times 0)) ("file" ++ fid) (times 0) := by
    simp [uploadFileGo, hup, hfid]
  have hgetName : cacheGet (cacheAdd (cacheAdd c ("filename" ++ fi.name) (times 0))
      ("file" ++ fid) (times 0)) ("filename" ++ fi.name) = some (times 0) := by
    by_cases he : ("filename" ++ fi.name : String) = ("file" ++ fid)
    · rw [he]
      exact cacheGet_add_self _ _ _
    · rw [cacheGet_add_other _ _ _ _ he]
      exact cacheGet_add_self _ _ _
  refine ⟨?_, ?_, ?_⟩
  · intro f hfi hlt
    rw [hc]
    have hget : cacheGet (cacheAdd (cacheAdd c ("filename" ++ fi.name) (times 0))
        ("file" ++ fid) (times 0)) ("file" ++ f.id) = some (times 0) := by
      rw [hfi]
      exact cacheGet_add_self _ _ _
    simp [fileCachedm, freshUnder, hget, hlt]
  · intro f hname hlt
    rw [hc]
    have hget : cacheGet (cacheAdd (cacheAdd c ("filename" ++ fi.name) (times 0))
        ("file" ++ fid) (times 0)) ("filename" ++ f.name) = some (times 0) := by
      rw [hname]
      exact hgetName
    simp [fileCachedm, freshUnder, hget, hlt]
  · intro f hfi hname hge
    rw [hc]
    have hget1 : cacheGet (cacheAdd (cacheAdd c ("filename" ++ fi.name) (times 0))
        ("file" ++ fid) (times 0)) ("file" ++ f.id) = some (times 0) := by
      rw [hfi]
      exact cacheGet_add_self _ _ _
    have hget2 : cacheGet (cacheAdd (cacheAdd c ("filename" ++ fi.name) (times 0))
        ("file" ++ fid) (times 0)) ("filename" ++ f.name) = some (times 0) := by
      rw [hname]
      exact hgetName
    have hn1 : ¬(t - times 0 < minuteNs) := not_lt.mpr hge
    have hn2 : ¬(t - times 0 < tenSecondsNs) := by
      simp only [minuteNs] at hge
      simp only [tenSecondsNs]
      omega
    simp [fileCachedm, freshUnder, hget1, hget2, hn1, hn2]

/-- C2 witness: at the concrete upload of pic.png returning id F1 at
time 0, a same-id sighting at 5 ns and a same-name sighting at 5 s are
suppressed, and an identical sighting at 60 s is not. -/
theorem c2_upload_dedup_windows_witness :
    fileCachedm (uploadFileGo uploadW timesW 0 [] "" [fiW]).1 5 { id := "F1", name := "x" } = true
      ∧ fileCachedm (uploadFileGo uploadW timesW 0 [] "" [fiW]).1 5000000000
          { id := "zz", name := "pic.png" } = true
      ∧ fileCachedm (uploadFileGo uploadW timesW 0 [] "" [fiW]).1 60000000000
          { id := "F1", name := "pic.png" } = false := by
  refine ⟨?_, ?_, ?_⟩
  · exact (c2_upload_dedup_windows uploadW timesW [] fiW "F1" (some "11.22") 5 rfl
      (by decide)).1 _ rfl (by decide)
  · exact (c2_upload_dedup_windows uploadW timesW [] fiW "F1" (some "11.22") 5000000000 rfl
      (by decide)).2.1 _ rfl (by decide)
  · exact (c2_upload_dedup_windows uploadW timesW [] fiW "F1" (some "11.22") 60000000000 rfl
      (by decide)).2.2 _ rfl rfl (by decide)

/-- C6 amended-claim witness: a titled attachment overwrites any
accumulated text, a bare-text attachment appends, and a list ending in a
fallback-only attachment is determined by that last attachment. -/
theorem c6_attachment_text_overwrite_witness :
    attachStep "x" attachTitled = attachStep "y" attachTitled
      ∧ attachStep "x" attachB = "x" ++ attachStep "" attachB
      ∧ attachmentsTextm "" [attachA, attachFB] = attachStep "" attachFB := by
  refine ⟨?_, ?_, ?_⟩
  · exact c6_attachment_text_overwrite.1 "x" "y" attachTitled (Or.inr (by decide))
  · exact c6_attachment_text_overwrite.2.1 "x" attachB (by decide) rfl
  · exact c6_attachment_text_overwrite.2.2 [attachA] attachFB (Or.inl rfl)

/-- C7: for a non-status message event with no files, handleMessageEvent
fails with the cause-tagged empty-message error exactly when the message
after classification and attachment handling has empty text or empty
username (webhook-bot cause when the event has a bot id, edited
sub-message cause when it has a sub-message, generic otherwise), and
otherwise returns the populated message for forwarding. -/
theorem c7_empty_message_validation (env : DLEnv) (ev : MessageEvent) (populated : CMessage)
    (hstatus : (handleStatusEventm ev populated).2 = false)
    (hfiles : ev.files = []) :
    (((handleAttachmentsm env ev (handleStatusEventm ev populated).1).text = ""
        ∨ (handleAttachmentsm env ev (handleStatusEventm ev populated).1).username = "") →
      handleMessageEventm env ev populated =
        .error (if ev.botID ≠ "" then .webhookBot
          else if ev.subMessage.isSome then .editedSub else .generic))
    ∧ ((handleAttachmentsm env ev (handleStatusEventm ev populated).1).text ≠ "" →
      (handleAttachmentsm env ev (handleStatusEventm ev populated).1).username ≠ "" →
      handleMessageEventm env ev populated =
        .ok (handleAttachmentsm env ev (handleStatusEventm ev populated).1)) := by
  constructor
  · intro hempty
    have hcond : ((handleAttachmentsm env ev (handleStatusEventm ev populated).1).text == ""
        || (handleAttachmentsm env ev (handleStatusEventm ev populated).1).username == "") = true := by
      rcases hempty with h | h
      · simp [h]
      · simp [h]
    by_cases hb : ev.botID = ""
    · by_cases hsub : ev.subMessage.isSome = true
      · simp [handleMessageEventm, hstatus, hfiles, hcond, hb, hsub]
      · simp [handleMessageEventm, hstatus, hfiles, hcond, hb, hsub]
    · simp [handleMessageEventm, hstatus, hfiles, hcond, hb]
  · intro ht hu
    have hcond : ((handleAttachmentsm env ev (handleStatusEventm ev populated).1).text == ""
        || (handleAttachmentsm env ev (handleStatusEventm ev populated).1).username == "") = false := by
      simp [Bool.or_eq_false_iff, beq_eq_false_iff_ne, ht, hu]
    simp [handleMessageEventm, hstatus, hfiles, hcond]

/-- C7 witness: a plain event with no files and a populated message with
nonempty text and username passes validation and is returned for
forwarding. -/
theorem c7_empty_message_validation_witness :
    handleMessageEventm envDLCached evC7 popC7
      = .ok (handleAttachmentsm envDLCached evC7 popC7) := by
  exact (c7_empty_message_validation envDLCached evC7 popC7 rfl rfl).2 (by decide) (by decide)

/-- C8: handleDownloadFile is a success no-op when the file is cached,
a success no-op (no fetch) when the size/blacklist policy rejects, and on
a first-attempt length mismatch it sleeps one second and retries exactly
once, accepting the second attempt's data as-is (whatever its length) and
processing it. -/
theorem c8_download_retry (env : DLEnv) (m : CMessage) (f : SFile) :
    (env.cached f = true → handleDownloadFilem env m f = (m, ⟨0, 0⟩, none))
    ∧ (env.cached f = false → env.sizeAllowed f.name f.size = false →
      handleDownloadFilem env m f = (m, ⟨0, 0⟩, none))
    ∧ (∀ d0 d1 : List Nat, env.cached f = false → env.sizeAllowed f.name f.size = true →
      env.fetch f.url 0 = .ok d0 → d0.length ≠ f.size → env.fetch f.url 1 = .ok d1 →
      handleDownloadFilem env m f
        = (env.processData { m with text := "" } f m.text d1, ⟨2, 1⟩, none)) := by
  refine ⟨?_, ?_, ?_⟩
  · intro hcache
    simp [handleDownloadFilem, hcache]
  · intro hcache hsize
    simp [handleDownloadFilem, hcache, hsize]
  · intro d0 d1 hcache hsize hf0 hlen hf1
    have hlen2 : (d0.length != f.size) = true := bne_iff_ne.mpr hlen
    simp [handleDownloadFilem, handleDownloadFileRetrym, hcache, hsize, hf0, hf1, hlen2]

/-- C8 witness: with a fetch returning one byte then two bytes against a
declared size of three, the handler fetches twice, sleeps one second, and
succeeds with the second data and a cleared caption. -/
theorem c8_download_retry_witness :
    handleDownloadFilem envC8 mC8 fC8 = ({ mC8 with text := "" }, ⟨2, 1⟩, none) := by
  exact (c8_download_retry envC8 mC8 fC8).2.2 [7] [7, 8] rfl rfl rfl (by decide) rfl

/-- C9: the events endpoint answers a parsed url_verification envelope
with the challenge JSON, answers 400 exactly when the envelope type is
url_verification and the challenge parse fails, answers 200 with empty
body (forwarding the message) for an accepted non-bot message event, and
silently answers 200 with empty body, forwarding nothing, in every other
case — in particular for a wholly unparsable body (zero-value envelope)
or an unparsable message event. -/
theorem c9_events_endpoint (env : EventsEnv) (evt : EventWrapper) :
    ((handleSlackEventsm env evt).1 = .badRequest ↔
      (evt.wtype = "url_verification" ∧ env.challengeParse = none))
    ∧ (∀ ch : String, evt.wtype = "url_verification" → env.challengeParse = some ch →
      handleSlackEventsm env evt = (.challengeJSON ch, none))
    ∧ (∀ chName : String, evt.wtype = "event_callback" → evt.event.etype = "message" →
      evt.event.subType ≠ "bot_message" → env.channelByID evt.event.channel = some chName →
      (handleSlackEventsm env evt).1 = .okEmpty
        ∧ (handleSlackEventsm env evt).2.isSome = true)
    ∧ (evt.wtype ≠ "url_verification" →
      ((env.channelByID evt.event.channel).isSome = false
        ∨ ¬(evt.wtype = "event_callback" ∧ evt.event.etype = "message"
            ∧ evt.event.subType ≠ "bot_message")) →
      handleSlackEventsm env evt = (.okEmpty, none)) := by
  refine ⟨?_, ?_, ?_, ?_⟩
  · by_cases h1 : evt.wtype = "url_verification"
    · cases hp : env.challengeParse with
      | none => simp [handleSlackEventsm, h1, hp]
      | some ch => simp [handleSlackEventsm, h1, hp]
    · have hne : (handleSlackEventsm env evt).1 ≠ .badRequest := by
        rw [handleSlackEventsm]
        rw [if_neg (by simp [h1])]
        split
        · split
          · simp
          · simp
        · simp
      constructor
      · intro hbad
        exact absurd hbad hne
      · rintro ⟨ha, _⟩
        exact absurd ha h1
  · intro ch h1 hp
    simp [handleSlackEventsm, h1, hp]
  · intro chName h1 h2 h3 hch
    have h3b : (evt.event.subType != "bot_message") = true := bne_iff_ne.mpr h3
    constructor
    · simp [handleSlackEventsm, h1, h2, h3b, hch]
    · simp [handleSlackEventsm, h1, h2, h3b, hch]
  · intro h1 hdrop
    by_cases h2 : (evt.wtype == "event_callback" && evt.event.etype == "message"
        && evt.event.subType != "bot_message") = true
    · have h2p := h2
      rw [Bool.and_eq_true, Bool.and_eq_true] at h2p
      obtain ⟨⟨hcb, hmsg⟩, hnb⟩ := h2p
      rcases hdrop with hch | habs
      · have hchn : env.channelByID evt.event.channel = none := by
          cases hcv : env.channelByID evt.event.channel with
          | none => rfl
          | some v => rw [hcv] at hch; exact absurd hch (by simp)
        rw [handleSlackEventsm]
        rw [if_neg (by simp [h1])]
        rw [if_pos h2]
        rw [hchn]
      · exact absurd ⟨beq_iff_eq.mp hcb, beq_iff_eq.mp hmsg, bne_iff_ne.mp hnb⟩ habs
    · rw [handleSlackEventsm]
      rw [if_neg (by simp [h1])]
      rw [if_neg h2]

/-- C9 witness: the concrete verification envelope is answered with its
challenge token, and a concrete accepted message event is answered 200
empty with a forwarded message. -/
theorem c9_events_endpoint_witness :
    handleSlackEventsm envC9V evtC9V = (.challengeJSON "tok", none)
      ∧ (handleSlackEventsm envC9M evtC9M).1 = .okEmpty
      ∧ (handleSlackEventsm envC9M evtC9M).2.isSome = true := by
  refine ⟨?_, ?_, ?_⟩
  · exact (c9_events_endpoint envC9V evtC9V).2.1 "tok" rfl rfl
  · exact ((c9_events_endpoint envC9M evtC9M).2.2.1 "general" rfl rfl (by decide) rfl).1
  · exact ((c9_events_endpoint envC9M evtC9M).2.2.1 "general" rfl rfl (by decide) rfl).2

/-- C10 counterexample: in API mode with nickname prefixing enabled, a
canonical message with empty event, empty id, no Extra payloads, empty
text (also after rewriting) and a nonempty username IS posted: the
username prefix makes the text nonempty, so a post call is issued and the
platform's new id is returned instead of the empty pair. -/
theorem c10_counterexample :
    Sendm envC10 msgC10 = .viaAPI (.ok "169.42") [APICall.post "C1" "alice"] := rfl

/-- C10 (amended): a canonical message with empty event, empty id and no
Extra payloads, whose channel resolves, whose parent id does not carry
the unresolved-thread marker, with nickname prefixing disabled or an
empty username, and whose text is empty after clipping and code-fence
rewriting, is silently dropped by Send in API mode: no platform call is
issued and the pair (empty id, nil error) is returned. -/
theorem c10_empty_text_not_posted (env : SendEnv) (msg : CMessage)
    (hmode : env.outgoingURL = "" ∨ env.tokenBot ≠ "")
    (hrw : env.rewriteText msg.text = "")
    (hev : msg.event = "") (hid : msg.id = "")
    (hex : msg.extra.isEmpty = true)
    (hch : (env.getChannel msg.channel).isSome = true)
    (hpar : env.parentNotFound msg.parentID = false)
    (hnick : env.prependNick = false ∨ msg.username = "") :
    Sendm env msg = .viaAPI (.ok "") [] := by
  obtain ⟨chID, hch2⟩ := Option.isSome_iff_exists.mp hch
  have hcond : (env.outgoingURL != "" && env.tokenBot == "") = false := by
    rcases hmode with h | h
    · simp [h]
    · simp [h]
  rcases hnick with hn | hn
  · simp [Sendm, sendAPIm, postAPIMessagem, hrw, hev, hid, hex, hch2, hpar, hcond, hn,
      eventUserAction, eventGetChannelMembers, eventUserTyping, eventTopicChange, eventMsgDelete]
  · simp [Sendm, sendAPIm, postAPIMessagem, hrw, hev, hid, hex, hch2, hpar, hcond, hn,
      eventUserAction, eventGetChannelMembers, eventUserTyping, eventTopicChange, eventMsgDelete,
      String.empty_append]

/-- C10 amended-claim witness: in the concrete API-mode environment with
nickname prefixing disabled, the empty message is dropped with no call
and the empty pair. -/
theorem c10_empty_text_not_posted_witness :
    Sendm envC10W msgC10 = .viaAPI (.ok "") [] := by
  exact c10_empty_text_not_posted envC10W msgC10 (Or.inr (by decide)) rfl rfl rfl rfl rfl rfl
    (Or.inl rfl)

end MBSlack
